import Mathlib

/-!
Verification of the Customer-Support-Agent workflow engine.

The definitions below are a shallow embedding of the repository's Python
sources (`nodes.py`, `database.py`): pure post-processing and decision logic
is translated to Lean functions, Python floats become rationals, and the
side effects that matter to the claims (data-store inserts/queries, sleeps,
generative calls) are recorded explicitly in the returned values.
-/

set_option maxRecDepth 8192

namespace CustomerSupport

/-! ## String utilities modelling the Python string operations used -/

/-- Models Python `str.lower()` (ASCII-faithful, via `Char.toLower`). -/
def pyLower (s : String) : String := String.mk (s.data.map Char.toLower)

/-- List-of-chars prefix test, used to define substring containment. -/
def isPrefixL : List Char → List Char → Bool
  | [], _ => true
  | _ :: _, [] => false
  | a :: as, b :: bs => a == b && isPrefixL as bs

/-- `containsL needle hay`: does `hay` contain `needle` as a contiguous
substring?  Models the Python expression `needle in hay`. -/
def containsL (needle : List Char) : List Char → Bool
  | [] => isPrefixL needle []
  | h :: t => isPrefixL needle (h :: t) || containsL needle t

/-- Models Python `needle in hay` for strings (substring containment). -/
def strContains (hay needle : String) : Bool := containsL needle.data hay.data

/-- Models Python `sep.join(l)`. -/
def joinSep (sep : String) : List String → String
  | [] => ""
  | [x] => x
  | x :: y :: ys => x ++ sep ++ joinSep sep (y :: ys)

/-- Models Python `str.title()` for ASCII text: the first letter of every
alphabetic run is uppercased, the rest lowercased. -/
def pyTitleGo : Bool → List Char → List Char
  | _, [] => []
  | prevAlpha, c :: cs =>
    if c.isAlpha then
      (if prevAlpha then c.toLower else c.toUpper) :: pyTitleGo true cs
    else
      c :: pyTitleGo false cs

/-- Models Python `str.title()`. -/
def pyTitle (s : String) : String := String.mk (pyTitleGo false s.data)

/-- Models the Python format specifier `%04d` for `0 ≤ n ≤ 9999`. -/
def pad4 (n : ℕ) : String :=
  let s := toString n
  if s.length < 4 then String.mk (List.replicate (4 - s.length) '0') ++ s else s

/-- Round a rational to the nearest integer, ties to even (the rounding used
by CPython when formatting floats). -/
def roundHalfEven (q : ℚ) : ℤ :=
  let f : ℤ := ⌊q⌋
  let frac : ℚ := q - (f : ℚ)
  if frac < 1 / 2 then f
  else if (1 / 2 : ℚ) < frac then f + 1
  else if f % 2 = 0 then f else f + 1

/-- Two-digit zero-padded rendering of `n < 100`. -/
def natDigits2 (n : ℕ) : String := if n < 10 then "0" ++ toString n else toString n

/-- Render `m` hundredths as a decimal with exactly two fractional digits. -/
def hundredthsString (m : ℕ) : String :=
  toString (m / 100) ++ "." ++ natDigits2 (m % 100)

/-- Models the Python f-string conversion `:.2f` on a value represented as a
rational: fixed-point with two decimals, nearest/ties-to-even rounding (the
behaviour of CPython on exactly-representable values). -/
def fmt2f (q : ℚ) : String :=
  let h := roundHalfEven (q * 100)
  if h < 0 then "-" ++ hundredthsString (Int.toNat (-h)) else hundredthsString (Int.toNat h)

/-- Split a character list on a separator character (like `str.split(sep)`). -/
def splitOnChar (sep : Char) : List Char → List (List Char)
  | [] => [[]]
  | x :: xs =>
    match splitOnChar sep xs with
    | [] => [[]]
    | g :: gs => if x == sep then [] :: g :: gs else (x :: g) :: gs

/-- Whitespace characters stripped by Python `float(str)`. -/
def isPySpace (c : Char) : Bool := c == ' ' || c == '\t' || c == '\n' || c == '\r'

/-- Strip leading and trailing whitespace from a character list. -/
def trimChars (cs : List Char) : List Char :=
  ((cs.dropWhile isPySpace).reverse.dropWhile isPySpace).reverse

/-- Numeric value of an ASCII digit character. -/
def digitVal (c : Char) : ℕ := c.toNat - 48

/-- Value of a digit run, most significant first. -/
def digitsVal : List Char → ℕ → ℕ
  | [], acc => acc
  | c :: cs, acc => digitsVal cs (acc * 10 + digitVal c)

/-- Parse an unsigned decimal literal (`"12"`, `"1.5"`, `".5"`, `"1."`). -/
def parseUnsignedChars (cs : List Char) : Option ℚ :=
  match splitOnChar '.' cs with
  | [a] =>
    if !a.isEmpty && a.all Char.isDigit then some (digitsVal a 0 : ℚ) else none
  | [a, b] =>
    if (!a.isEmpty || !b.isEmpty) && a.all Char.isDigit && b.all Char.isDigit then
      some ((digitsVal a 0 : ℚ) + (digitsVal b 0 : ℚ) / (10 : ℚ) ^ b.length)
    else none
  | _ => none

/-- Models Python `float(s)` on a string argument, restricted to plain
decimal literals with an optional sign and surrounding whitespace (the
exponent/`inf`/`nan` forms accepted by CPython are not modelled; no claim
depends on them).  `none` models the `ValueError` raised otherwise. -/
def parseDecimal (s : String) : Option ℚ :=
  match trimChars s.data with
  | '+' :: rest => parseUnsignedChars rest
  | '-' :: rest => (parseUnsignedChars rest).map (fun q => -q)
  | cs => parseUnsignedChars cs

/-! ## Python values: the shape of parsed JSON and of handler-context dicts -/

/-- A Python value as produced by `json.loads` or stored in the
`handler_context` dicts of `nodes.py`. -/
inductive PyVal where
  | null
  | bool (b : Bool)
  | num (q : ℚ)
  | str (s : String)
  | arr (xs : List PyVal)
  | obj (fields : List (String × PyVal))

/-- A Python dict with string keys, as used for `handler_context`. -/
abbrev Ctx := List (String × PyVal)

/-- Models `dict.get(key)` on a dict built by `json.loads`: with duplicate
keys the last occurrence wins, as in CPython. -/
def objGet : List (String × PyVal) → String → Option PyVal
  | [], _ => none
  | (k, v) :: rest, key =>
    match objGet rest key with
    | some w => some w
    | none => if k == key then some v else none

/-! ## `classify_issue` (nodes.py) — post-processing of the model output

The generative call itself is external; the embedded function starts from
the outcome of `json.loads` on the fence-stripped response text:
`none` models a `json.JSONDecodeError`, `some v` the parsed value. -/

/-- Outcome of Python `float(x)` on a parsed JSON value: a value, a
`ValueError` (caught by the `except` clause of `classify_issue`), or a
`TypeError` (raised by `float(None)`, `float(list)`, `float(dict)` and NOT
caught by `except (json.JSONDecodeError, ValueError, AttributeError)`). -/
inductive FloatResult where
  | val (q : ℚ)
  | valueError
  | typeError
deriving DecidableEq

/-- Models Python `float(x)` on a JSON-decoded value (`float(True) = 1.0`
because `bool` is an `int` subclass). -/
def pyFloat : PyVal → FloatResult
  | .num q => .val q
  | .bool b => .val (if b then 1 else 0)
  | .str s =>
    match parseDecimal s with
    | some q => .val q
    | none => .valueError
  | .null => .typeError
  | .arr _ => .typeError
  | .obj _ => .typeError

/-- `result.get("issue_type", "general")` from `classify_issue`. -/
def getIssueTypeRaw (fields : List (String × PyVal)) : PyVal :=
  (objGet fields "issue_type").getD (.str "general")

/-- `result.get("confidence", 0.5)` from `classify_issue`. -/
def getConfidenceRaw (fields : List (String × PyVal)) : PyVal :=
  (objGet fields "confidence").getD (.num (1 / 2))

/-- Outcome of the `try` block of `classify_issue`: a parsed pair, an
exception caught by the `except` clause, or an uncaught exception. -/
inductive ClassifyStep where
  | ok (issue_type : String) (confidence : ℚ)
  | caught
  | uncaught
deriving DecidableEq

/-- The `try` block of `classify_issue` (nodes.py lines 93-104).
`.caught` covers `json.JSONDecodeError` (input `none`), `AttributeError`
(`.get` on a non-dict, `.lower()` on a non-string) and `ValueError`
(`float` on a non-numeric string); `.uncaught` is the `TypeError` raised by
`float` on `None`/list/dict, which the `except` clause does not list. -/
def classifyTry : Option PyVal → ClassifyStep
  | none => .caught
  | some (.obj fields) =>
    match getIssueTypeRaw fields with
    | .str s =>
      match pyFloat (getConfidenceRaw fields) with
      | .val q => .ok (pyLower s) q
      | .valueError => .caught
      | .typeError => .uncaught
    | _ => .caught
  | some _ => .caught

/-- The classification pair returned by `classify_issue`. -/
structure Classification where
  issue_type : String
  confidence : ℚ
deriving DecidableEq

/-- The `valid_types` set of `classify_issue` (nodes.py line 107). -/
def valid_types : List String := ["delivery", "refund", "technical", "general"]

/-- The validation step of `classify_issue` (nodes.py lines 106-110). -/
def validate_issue_type (it : String) (conf : ℚ) : Classification :=
  if it ∈ valid_types then { issue_type := it, confidence := conf }
  else { issue_type := "general", confidence := 3 / 10 }

/-- `classify_issue` from the parse outcome on: the `except` clause sets the
`general`/`0.3` fallback, then the validation step runs on either path.
`none` models the node itself raising (uncaught `TypeError`). -/
def classify_issue_post (parsed : Option PyVal) : Option Classification :=
  match classifyTry parsed with
  | .uncaught => none
  | .caught => some (validate_issue_type "general" (3 / 10))
  | .ok it q => some (validate_issue_type it q)

/-! ## `invoke_llm_with_retry` (nodes.py lines 35-51) -/

/-- The rate-limit test of `invoke_llm_with_retry`:
`"429" in str(e) or "RESOURCE_EXHAUSTED" in str(e)`. -/
def isRateLimited (e : String) : Bool :=
  strContains e "429" || strContains e "RESOURCE_EXHAUSTED"

/-- Result of the retry wrapper together with the `time.sleep` delays it
performed, in order. -/
structure RetryOutcome (α : Type) where
  result : Except String α
  sleeps : List ℕ

/-- The `for attempt in range(max_retries)` loop of `invoke_llm_with_retry`.
`cap i` is the outcome of the `i`-th call to `llm.invoke` (errors carry
`str(e)`).  When the loop exhausts, the final unprotected call is made. -/
def retryGo {α : Type} (cap : ℕ → Except String α) (initialDelay : ℕ) :
    ℕ → ℕ → List ℕ → RetryOutcome α
  | attempt, 0, sleeps => { result := cap attempt, sleeps := sleeps }
  | attempt, r + 1, sleeps =>
    match cap attempt with
    | .ok v => { result := .ok v, sleeps := sleeps }
    | .error e =>
      if isRateLimited e then
        retryGo cap initialDelay (attempt + 1) r (sleeps ++ [initialDelay * 2 ^ attempt])
      else
        { result := .error e, sleeps := sleeps }

/-- `invoke_llm_with_retry(messages, max_retries, initial_delay)`; the
source defaults are `max_retries = 3`, `initial_delay = 5`. -/
def invoke_llm_with_retry {α : Type} (cap : ℕ → Except String α)
    (max_retries initial_delay : ℕ) : RetryOutcome α :=
  retryGo cap initial_delay 0 max_retries []

/-- A capability that fails with a rate-limit error exactly twice, then
succeeds (witness scenario for the backoff claim). -/
def capTwoRateLimits : ℕ → Except String String :=
  fun i => if i < 2 then Except.error "429 rate limit" else Except.ok "done"

/-- A capability whose first call fails with a non-rate-limit error
(witness scenario for the immediate-propagation claim). -/
def capFailsOther : ℕ → Except String String :=
  fun _ => Except.error "boom"

/-! ## `check_escalation` (nodes.py lines 289-326) -/

/-- The `escalation_keywords` list of `check_escalation`. -/
def escalationKeywords : List String :=
  ["lawsuit", "sue", "legal", "lawyer", "attorney",
   "manager", "supervisor", "human agent", "real person",
   "unacceptable", "worst experience", "never again",
   "report", "complaint", "consumer forum", "bbb"]

/-- The low-confidence reason string
`f"Low classification confidence ({confidence:.2f})"`. -/
def lowConfReason (confidence : ℚ) : String :=
  "Low classification confidence (" ++ fmt2f confidence ++ ")"

/-- `[kw for kw in escalation_keywords if kw in customer_message]` where
`customer_message` has been lowercased. -/
def foundKeywords (msg : String) : List String :=
  escalationKeywords.filter (fun kw => strContains (pyLower msg) kw)

/-- The two trigger blocks of `check_escalation`, mirroring the imperative
updates of `escalate` and `reasons`: returns the final flag and list. -/
def escalationCore (confidence : ℚ) (msg : String) : Bool × List String :=
  let s1 : Bool × List String :=
    if confidence < 1 / 2 then (true, [lowConfReason confidence]) else (false, [])
  let found := foundKeywords msg
  if found.isEmpty then s1
  else (true, s1.2 ++ ["Sensitive keywords detected: " ++ joinSep ", " found])

/-- The dict returned by `check_escalation`. -/
structure EscalationResult where
  escalate : Bool
  escalation_reason : String
deriving DecidableEq

/-- `check_escalation(state)`: its inputs are `state.get("confidence", 1.0)`
and `state["customer_message"]`; `escalation_reason` is
`"; ".join(reasons) if reasons else ""`. -/
def check_escalation (confidence : ℚ) (msg : String) : EscalationResult :=
  let r := escalationCore confidence msg
  { escalate := r.1,
    escalation_reason := if r.2.isEmpty then "" else joinSep "; " r.2 }

/-! ## `handle_refund` (nodes.py lines 158-181) -/

/-- A handler node's returned context, together with the list of
`database.py` query functions it invoked (the source body of
`handle_refund` invokes none — its data is an inline literal). -/
structure HandlerOutput where
  handler_context : Ctx
  dbQueries : List String

/-- `handle_refund(state)`: the state argument is never read; the context
is built from the inline `simulated_refund_data` literal and no data-store
function is called. -/
def handle_refund (_customer_message : String) : HandlerOutput :=
  { handler_context :=
      [("handler", .str "refund"),
       ("refund_data", .obj
         [("refund_policy", .str ("Full refund within 30 days of purchase for unused items. " ++
            "Damaged items are eligible for immediate replacement or refund.")),
          ("refund_processing_time", .str "5-7 business days"),
          ("refund_method", .str "Original payment method"),
          ("return_shipping", .str "Free return shipping label provided")]),
       ("instructions", .str ("Explain the refund/return policy clearly. Guide the customer through " ++
          "the return process. Be understanding about their frustration."))],
    dbQueries := [] }

/-- The refund scenario message from `test_agent.py`. -/
def refundScenarioMessage : String :=
  "I received broken headphones. I want a full refund please."

/-! ## `insert_support_ticket` (database.py lines 386-413) -/

/-- The ticket row built by `insert_support_ticket`; `rand` stands for the
`random.randint(1000, 9999)` draw and `now` for `datetime.utcnow()`. -/
structure Ticket where
  ticket_id : String
  customer_message : String
  issue_type : String
  escalation_reason : String
  priority : String
  status : String
  assigned_to : Option String
  handler_context : Ctx
  created_at : String
  updated_at : String

/-- `insert_support_ticket(customer_message, issue_type, escalation_reason,
handler_context)`; the surrounding `status = "inserted"` wrapper dict is not
modelled (the claims concern the ticket row). -/
def insert_support_ticket (customer_message issue_type escalation_reason : String)
    (handler_context : Ctx) (rand : ℕ) (now : String) : Ticket :=
  { ticket_id := "TKT-2026-" ++ toString rand,
    customer_message := customer_message,
    issue_type := issue_type,
    escalation_reason := escalation_reason,
    priority :=
      if ["sue", "legal", "lawyer"].any (fun kw => strContains (pyLower customer_message) kw)
      then "high" else "medium",
    status := "open",
    assigned_to := none,
    handler_context := handler_context,
    created_at := now,
    updated_at := now }

/-! ## `escalate_to_human` (nodes.py lines 373-398) -/

/-- Output of the escalation responder, with the side effects relevant to
the claims recorded: the `insert_support_ticket` calls the node body makes
(none appear in the source) and the number of `invoke_llm_with_retry`
calls it makes (none appear in the source). -/
structure EscalateOutput where
  response : String
  ticketsInserted : List Ticket
  llmCalls : ℕ

/-- `escalate_to_human(state)`: reads `customer_message`,
`state.get("issue_type", "unknown")`, `state.get("escalation_reason",
"Unspecified")` and `state.get("handler_context", \x7b\x7d)` (unused), and
formats the template response; `msgHash` stands for the process-seeded
Python `hash(customer_message)`. -/
def escalate_to_human (_customer_message issue_type escalation_reason : String)
    (_handler_context : Ctx) (msgHash : ℕ) : EscalateOutput :=
  { response :=
      "Thank you for reaching out to ShopEase. I understand your concern, " ++
      "and I want to make sure you receive the best possible assistance.\n\n" ++
      "I am connecting you with a senior support specialist who will be able " ++
      "to help you further. Your case has been flagged as priority.\n\n" ++
      "📋 **Your Case Summary:**\n" ++
      "- Issue Type: " ++ pyTitle issue_type ++ "\n" ++
      "- Escalation Reason: " ++ escalation_reason ++ "\n" ++
      "- Reference ID: ESC-2026-" ++ pad4 (msgHash % 10000) ++ "\n\n" ++
      "A human agent will respond within 15 minutes during business hours " ++
      "(Mon-Fri, 9 AM - 6 PM IST).\n\n" ++
      "— ShopEase Support Team",
    ticketsInserted := [],
    llmCalls := 0 }

/-- An escalating input state (legal threat plus manager request), the
scenario exercised by `test_agent.py`. -/
def escalationScenarioMessage : String :=
  "This is unacceptable and I will sue you. I want a manager."

/-- The escalation responder's output on the escalation scenario. -/
def escalationScenarioResult : EscalateOutput :=
  escalate_to_human escalationScenarioMessage "refund"
    "Sensitive keywords detected: sue, manager, unacceptable" [] 1234

/-! ## Helper lemmas about substring containment and joining -/

theorem containsL_nil_true (l : List Char) : containsL [] l = true := by
  cases l <;> simp [containsL, isPrefixL]

theorem isPrefixL_self_append (n r : List Char) : isPrefixL n (n ++ r) = true := by
  induction n with
  | nil => rfl
  | cons a as ih => simp [isPrefixL, ih]

theorem containsL_self_append (n r : List Char) : containsL n (n ++ r) = true := by
  cases n with
  | nil => exact containsL_nil_true _
  | cons a as =>
    have h := isPrefixL_self_append (a :: as) r
    simp only [List.cons_append] at h ⊢
    simp [containsL, h]

theorem containsL_append_left (p t n : List Char) (h : containsL n t = true) :
    containsL n (p ++ t) = true := by
  induction p with
  | nil => simpa using h
  | cons c ps ih => simp [containsL, ih]

theorem strContains_append_middle (a t b : String) : strContains (a ++ t ++ b) t = true := by
  show containsL t.data ((a ++ t ++ b)).data = true
  rw [String.data_append, String.data_append, List.append_assoc]
  exact containsL_append_left _ _ _ (containsL_self_append _ _)

theorem str_ne_empty_of_data (s : String) (h : s.data ≠ []) : s ≠ "" := by
  intro hc
  subst hc
  exact h rfl

theorem str_data_ne_nil_left (a b : String) (h : a.data ≠ []) : (a ++ b).data ≠ [] := by
  rw [String.data_append]
  intro hc
  exact h (List.append_eq_nil.mp hc).1

theorem joinSep_cons_ne_empty (sep x : String) (xs : List String) (hx : x.data ≠ []) :
    joinSep sep (x :: xs) ≠ "" := by
  cases xs with
  | nil => simpa [joinSep] using str_ne_empty_of_data x hx
  | cons y ys =>
    show x ++ sep ++ joinSep sep (y :: ys) ≠ ""
    exact str_ne_empty_of_data _ (str_data_ne_nil_left _ _ (str_data_ne_nil_left _ _ hx))

theorem lowConfReason_data_ne (c : ℚ) : (lowConfReason c).data ≠ [] := by
  unfold lowConfReason
  exact str_data_ne_nil_left _ _ (str_data_ne_nil_left _ _ (by decide))

theorem kwReason_data_ne (m : String) :
    ("Sensitive keywords detected: " ++ joinSep ", " (foundKeywords m)).data ≠ [] :=
  str_data_ne_nil_left _ _ (by decide)

theorem containsL_mem_joinSep (sep : String) (l : List String) (kw : String)
    (h : kw ∈ l) : containsL kw.data (joinSep sep l).data = true := by
  induction l with
  | nil => cases h
  | cons x xs ih =>
    cases xs with
    | nil =>
      rw [List.mem_singleton] at h
      subst h
      simpa [joinSep, List.append_nil] using containsL_self_append kw.data []
    | cons y ys =>
      show containsL kw.data ((x ++ sep ++ joinSep sep (y :: ys))).data = true
      rw [String.data_append, String.data_append]
      rcases List.mem_cons.mp h with rfl | h2
      · rw [List.append_assoc]
        exact containsL_self_append _ _
      · exact containsL_append_left _ _ _ (ih h2)

theorem isEmpty_false_of_mem {α : Type} (l : List α) (a : α) (h : a ∈ l) :
    l.isEmpty = false := by
  cases l with
  | nil => cases h
  | cons x xs => rfl

theorem escalationCore_cases (c : ℚ) (m : String) :
    escalationCore c m =
      if (foundKeywords m).isEmpty then
        (if c < 1 / 2 then (true, [lowConfReason c]) else (false, []))
      else
        (true, (if c < 1 / 2 then [lowConfReason c] else []) ++
          ["Sensitive keywords detected: " ++ joinSep ", " (foundKeywords m)]) := by
  unfold escalationCore
  by_cases h2 : (foundKeywords m).isEmpty = true
  · rw [if_pos h2, if_pos h2]
  · rw [if_neg h2, if_neg h2]
    by_cases h1 : c < 1 / 2
    · rw [if_pos h1, if_pos h1]
    · rw [if_neg h1, if_neg h1]

/-! ## Claim theorems -/

/-- Claim C4: for every (confidence, message) input pair, the Escalation
Evaluator's output satisfies the biconditional — `escalate = true` exactly
when the reasons sequence is non-empty, equivalently when the joined
`escalation_reason` string is non-empty. -/
theorem check_escalation_escalate_iff_reasons (c : ℚ) (m : String) :
    ((check_escalation c m).escalate = true ↔ (escalationCore c m).2 ≠ []) ∧
    ((check_escalation c m).escalate = true ↔
      (check_escalation c m).escalation_reason ≠ "") := by
  have hEC := escalationCore_cases c m
  by_cases h2 : (foundKeywords m).isEmpty = true
  · rw [if_pos h2] at hEC
    by_cases h1 : c < 1 / 2
    · rw [if_pos h1] at hEC
      have hne : lowConfReason c ≠ "" :=
        str_ne_empty_of_data _ (lowConfReason_data_ne c)
      simp [check_escalation, hEC, joinSep, hne]
    · rw [if_neg h1] at hEC
      simp [check_escalation, hEC]
  · rw [if_neg h2] at hEC
    by_cases h1 : c < 1 / 2
    · rw [if_pos h1] at hEC
      have hne : joinSep "; " [lowConfReason c,
          "Sensitive keywords detected: " ++ joinSep ", " (foundKeywords m)] ≠ "" :=
        joinSep_cons_ne_empty _ _ _ (lowConfReason_data_ne c)
      simp [check_escalation, hEC, hne]
    · rw [if_neg h1] at hEC
      have hne : ("Sensitive keywords detected: " ++ joinSep ", " (foundKeywords m)) ≠ "" :=
        str_ne_empty_of_data _ (kwReason_data_ne m)
      simp [check_escalation, hEC, joinSep, hne]

/-- Claim C4 witness: the biconditional at a concrete low-confidence state. -/
theorem check_escalation_escalate_iff_reasons_witness :
    (((check_escalation (3 / 10) "all good").escalate = true ↔
        (escalationCore (3 / 10) "all good").2 ≠ []) ∧
     ((check_escalation (3 / 10) "all good").escalate = true ↔
        (check_escalation (3 / 10) "all good").escalation_reason ≠ "")) :=
  check_escalation_escalate_iff_reasons (3 / 10) "all good"

/-- Claim C7: for every state whose confidence is strictly below `0.5`, the
Escalation Evaluator escalates and its first reason is the low-confidence
reason, which mentions the numeric confidence value (its `:.2f`
rendering). -/
theorem check_escalation_low_confidence (c : ℚ) (m : String) (h : c < 1 / 2) :
    (check_escalation c m).escalate = true ∧
    (escalationCore c m).2.head? = some (lowConfReason c) ∧
    strContains (lowConfReason c) (fmt2f c) = true := by
  have h3 : strContains (lowConfReason c) (fmt2f c) = true :=
    strContains_append_middle _ _ _
  have hEC := escalationCore_cases c m
  by_cases h2 : (foundKeywords m).isEmpty = true
  · rw [if_pos h2, if_pos h] at hEC
    exact ⟨by simp [check_escalation, hEC], by simp [hEC], h3⟩
  · rw [if_neg h2, if_pos h] at hEC
    exact ⟨by simp [check_escalation, hEC], by simp [hEC], h3⟩

/-- Claim C7 witness: the low-confidence conclusion at confidence `0.3`. -/
theorem check_escalation_low_confidence_witness :
    (check_escalation (3 / 10) "hello").escalate = true ∧
    (escalationCore (3 / 10) "hello").2.head? = some (lowConfReason (3 / 10)) ∧
    strContains (lowConfReason (3 / 10)) (fmt2f (3 / 10)) = true :=
  check_escalation_low_confidence (3 / 10) "hello" (by norm_num)

/-- Claim C10: the trigger-word scan is substring containment on the
lowercased message — whenever the lowercased message contains a trigger
string (even inside a longer word), the evaluator escalates, the trigger is
among the found keywords, and the sensitive-keywords reason lists it. -/
theorem check_escalation_keyword_substring (c : ℚ) (m kw : String)
    (hmem : kw ∈ escalationKeywords)
    (hsub : strContains (pyLower m) kw = true) :
    (check_escalation c m).escalate = true ∧
    kw ∈ foundKeywords m ∧
    ("Sensitive keywords detected: " ++ joinSep ", " (foundKeywords m)) ∈
      (escalationCore c m).2 ∧
    strContains ("Sensitive keywords detected: " ++ joinSep ", " (foundKeywords m))
      kw = true := by
  have hf : kw ∈ foundKeywords m := List.mem_filter.mpr ⟨hmem, hsub⟩
  have hne : (foundKeywords m).isEmpty = false := isEmpty_false_of_mem _ _ hf
  refine ⟨?_, hf, ?_, ?_⟩
  · simp [check_escalation, escalationCore_cases, hne]
  · have hcore : (escalationCore c m).2 =
        (if c < 1 / 2 then [lowConfReason c] else []) ++
          ["Sensitive keywords detected: " ++ joinSep ", " (foundKeywords m)] := by
      simp [escalationCore_cases, hne]
    rw [hcore]
    exact List.mem_append_right _ (List.mem_singleton.mpr rfl)
  · show containsL kw.data
      (("Sensitive keywords detected: " ++ joinSep ", " (foundKeywords m))).data = true
    rw [String.data_append]
    exact containsL_append_left _ _ _ (containsL_mem_joinSep _ _ _ hf)

/-- Claim C10 witness: the message contains "sue" only inside the word
"issue", yet it escalates with "sue" among the found keywords. -/
theorem check_escalation_keyword_substring_witness :
    (check_escalation 1 "There is an issue with my order").escalate = true ∧
    "sue" ∈ foundKeywords "There is an issue with my order" ∧
    ("Sensitive keywords detected: " ++
        joinSep ", " (foundKeywords "There is an issue with my order")) ∈
      (escalationCore 1 "There is an issue with my order").2 ∧
    strContains ("Sensitive keywords detected: " ++
        joinSep ", " (foundKeywords "There is an issue with my order")) "sue" = true :=
  check_escalation_keyword_substring 1 "There is an issue with my order" "sue"
    (by decide) (by decide)

/-- Claim C5: with `max_retries = 3`, a capability that rate-limits exactly
twice then succeeds yields the success result with exactly two sleeps, of
`initial_delay` and `2 * initial_delay`, in that order; and when all loop
attempts rate-limit, the final unprotected call's failure propagates. -/
theorem invoke_llm_with_retry_backoff :
    (∀ (cap : ℕ → Except String String) (e0 e1 v : String) (d : ℕ),
        cap 0 = Except.error e0 → isRateLimited e0 = true →
        cap 1 = Except.error e1 → isRateLimited e1 = true →
        cap 2 = Except.ok v →
        invoke_llm_with_retry cap 3 d =
          { result := Except.ok v, sleeps := [d, 2 * d] }) ∧
    (∀ (cap : ℕ → Except String String) (e0 e1 e2 e3 : String) (d : ℕ),
        cap 0 = Except.error e0 → isRateLimited e0 = true →
        cap 1 = Except.error e1 → isRateLimited e1 = true →
        cap 2 = Except.error e2 → isRateLimited e2 = true →
        cap 3 = Except.error e3 →
        invoke_llm_with_retry cap 3 d =
          { result := Except.error e3, sleeps := [d, 2 * d, 4 * d] }) := by
  constructor
  · intro cap e0 e1 v d h0 hr0 h1 hr1 h2
    show retryGo cap d 0 (2 + 1) [] = _
    rw [retryGo, h0]
    simp only [hr0, if_true]
    show retryGo cap d 1 (1 + 1) _ = _
    rw [retryGo, h1]
    simp only [hr1, if_true]
    show retryGo cap d 2 (0 + 1) _ = _
    rw [retryGo, h2]
    simp [mul_comm]
  · intro cap e0 e1 e2 e3 d h0 hr0 h1 hr1 h2 hr2 h3
    show retryGo cap d 0 (2 + 1) [] = _
    rw [retryGo, h0]
    simp only [hr0, if_true]
    show retryGo cap d 1 (1 + 1) _ = _
    rw [retryGo, h1]
    simp only [hr1, if_true]
    show retryGo cap d 2 (0 + 1) _ = _
    rw [retryGo, h2]
    simp only [hr2, if_true]
    show retryGo cap d 3 0 _ = _
    rw [retryGo, h3]
    simp [mul_comm, pow_succ]

/-- Claim C5 witness: the concrete two-rate-limits-then-success capability
with `initial_delay = 5` returns the success and sleeps `[5, 10]`. -/
theorem invoke_llm_with_retry_backoff_witness :
    invoke_llm_with_retry capTwoRateLimits 3 5 =
      { result := Except.ok "done", sleeps := [5, 10] } := by
  have h := invoke_llm_with_retry_backoff.1 capTwoRateLimits
    "429 rate limit" "429 rate limit" "done" 5 rfl (by decide) rfl (by decide) rfl
  simpa using h

/-- Claim C6: a capability whose first call fails with a non-rate-limit
error makes the Resilient Invoker propagate that error with zero sleeps,
and the outcome depends only on the first call (no further attempts). -/
theorem invoke_llm_with_retry_nonratelimit (cap : ℕ → Except String String)
    (e : String) (mr d : ℕ) (h0 : cap 0 = Except.error e)
    (hnr : isRateLimited e = false) :
    invoke_llm_with_retry cap mr d = { result := Except.error e, sleeps := [] } ∧
    (∀ cap2 : ℕ → Except String String, cap2 0 = cap 0 →
      invoke_llm_with_retry cap2 mr d = invoke_llm_with_retry cap mr d) := by
  have key : ∀ cap3 : ℕ → Except String String, cap3 0 = Except.error e →
      invoke_llm_with_retry cap3 mr d = { result := Except.error e, sleeps := [] } := by
    intro cap3 hc
    cases mr with
    | zero =>
      show retryGo cap3 d 0 0 [] = _
      rw [retryGo, hc]
    | succ r =>
      show retryGo cap3 d 0 (r + 1) [] = _
      rw [retryGo, hc]
      simp [hnr]
  exact ⟨key cap h0, fun cap2 hcap2 => by rw [key cap h0, key cap2 (hcap2.trans h0)]⟩

/-- Claim C6 witness: a concrete always-failing (non-rate-limit) capability
propagates its error with zero sleeps. -/
theorem invoke_llm_with_retry_nonratelimit_witness :
    invoke_llm_with_retry capFailsOther 3 5 =
      { result := Except.error "boom", sleeps := [] } :=
  (invoke_llm_with_retry_nonratelimit capFailsOther "boom" 3 5 rfl (by decide)).1

/-- Claim C2 counterexample: a model output that parses but has no
`issue_type` field yields `general` with the parsed confidence `0.9`, not
the `0.3` the claim requires for a missing category field. -/
theorem classify_missing_category_counterexample :
    classify_issue_post (some (PyVal.obj [("confidence", PyVal.num (9 / 10))])) =
      some { issue_type := "general", confidence := 9 / 10 } ∧
    classify_issue_post (some (PyVal.obj [("confidence", PyVal.num (9 / 10))])) ≠
      some { issue_type := "general", confidence := 3 / 10 } := by
  refine ⟨rfl, fun hc => ?_⟩
  have h1 : (some { issue_type := "general", confidence := (9 / 10 : ℚ) } :
      Option Classification) = some { issue_type := "general", confidence := 3 / 10 } := hc
  have h3 : (9 / 10 : ℚ) = 3 / 10 := congrArg Classification.confidence (Option.some.inj h1)
  norm_num at h3

/-- Claim C2 (amended): the returned category is always one of the four
enumerated values whenever the node returns normally; unparsable output
yields exactly `general`/`0.3`; an out-of-enumeration category string
yields exactly `general`/`0.3`; but a missing category field yields
`general` with the parsed confidence unchanged. -/
theorem classify_fallback_behavior :
    (∀ (parsed : Option PyVal) (cls : Classification),
        classify_issue_post parsed = some cls → cls.issue_type ∈ valid_types) ∧
    (classify_issue_post none =
      some { issue_type := "general", confidence := 3 / 10 }) ∧
    (∀ (fields : List (String × PyVal)) (s : String) (q : ℚ),
        objGet fields "issue_type" = some (PyVal.str s) →
        pyLower s ∉ valid_types →
        pyFloat (getConfidenceRaw fields) = FloatResult.val q →
        classify_issue_post (some (PyVal.obj fields)) =
          some { issue_type := "general", confidence := 3 / 10 }) ∧
    (∀ (fields : List (String × PyVal)) (q : ℚ),
        objGet fields "issue_type" = none →
        pyFloat (getConfidenceRaw fields) = FloatResult.val q →
        classify_issue_post (some (PyVal.obj fields)) =
          some { issue_type := "general", confidence := q }) := by
  have hval : ∀ (it : String) (q : ℚ) (cls : Classification),
      validate_issue_type it q = cls → cls.issue_type ∈ valid_types := by
    intro it q cls hv
    unfold validate_issue_type at hv
    by_cases hin : it ∈ valid_types
    · rw [if_pos hin] at hv
      subst hv
      exact hin
    · rw [if_neg hin] at hv
      subst hv
      decide
  refine ⟨?_, rfl, ?_, ?_⟩
  · intro parsed cls h
    cases hT : classifyTry parsed with
    | uncaught => simp [classify_issue_post, hT] at h
    | caught =>
      simp [classify_issue_post, hT] at h
      exact hval _ _ _ h
    | ok it q =>
      simp [classify_issue_post, hT] at h
      exact hval _ _ _ h
  · intro fields s q h1 h2 h3
    have hit : getIssueTypeRaw fields = PyVal.str s := by
      rw [getIssueTypeRaw, h1]
      rfl
    have hstep : classifyTry (some (PyVal.obj fields)) = .ok (pyLower s) q := by
      simp [classifyTry, hit, h3]
    have hv : validate_issue_type (pyLower s) q =
        { issue_type := "general", confidence := 3 / 10 } := by
      unfold validate_issue_type
      rw [if_neg h2]
    simp [classify_issue_post, hstep, hv]
  · intro fields q h1 h3
    have hit : getIssueTypeRaw fields = PyVal.str "general" := by
      rw [getIssueTypeRaw, h1]
      rfl
    have hstep : classifyTry (some (PyVal.obj fields)) = .ok (pyLower "general") q := by
      simp [classifyTry, hit, h3]
    have hlow : pyLower "general" = "general" := by decide
    have hv : validate_issue_type "general" q =
        { issue_type := "general", confidence := q } := by
      unfold validate_issue_type
      rw [if_pos (by decide)]
    simp [classify_issue_post, hstep, hlow, hv]

/-- Claim C2 witness: an out-of-enumeration category string (\"Shipping\")
falls back to exactly `general`/`0.3`. -/
theorem classify_fallback_behavior_witness :
    classify_issue_post (some (PyVal.obj
      [("issue_type", PyVal.str "Shipping"), ("confidence", PyVal.num (8 / 10))])) =
      some { issue_type := "general", confidence := 3 / 10 } :=
  classify_fallback_behavior.2.2.1 _ "Shipping" (8 / 10) rfl (by decide) rfl

/-- Claim C3 counterexample: a numeric confidence of `1.5` is returned
unchanged — it is not coerced into `[0.0, 1.0]`. -/
theorem classify_confidence_unclamped_counterexample :
    classify_issue_post (some (PyVal.obj
      [("issue_type", PyVal.str "refund"), ("confidence", PyVal.num (3 / 2))])) =
      some { issue_type := "refund", confidence := 3 / 2 } ∧
    ¬ ((3 / 2 : ℚ) ≤ 1) :=
  ⟨rfl, by norm_num⟩

/-- Claim C3 (amended): the Classifier returns the parsed numeric
confidence value unchanged (no clamping to `[0.0, 1.0]`), and a
non-numeric (non-convertible) confidence string triggers the
`general`/`0.3` fallback. -/
theorem classify_confidence_passthrough :
    (∀ (fields : List (String × PyVal)) (s : String) (q : ℚ),
        objGet fields "issue_type" = some (PyVal.str s) →
        pyLower s ∈ valid_types →
        objGet fields "confidence" = some (PyVal.num q) →
        classify_issue_post (some (PyVal.obj fields)) =
          some { issue_type := pyLower s, confidence := q }) ∧
    (∀ (fields : List (String × PyVal)) (s t : String),
        objGet fields "issue_type" = some (PyVal.str s) →
        objGet fields "confidence" = some (PyVal.str t) →
        parseDecimal t = none →
        classify_issue_post (some (PyVal.obj fields)) =
          some { issue_type := "general", confidence := 3 / 10 }) := by
  constructor
  · intro fields s q h1 hmem hc
    have hit : getIssueTypeRaw fields = PyVal.str s := by
      rw [getIssueTypeRaw, h1]
      rfl
    have hconf : getConfidenceRaw fields = PyVal.num q := by
      rw [getConfidenceRaw, hc]
      rfl
    have hstep : classifyTry (some (PyVal.obj fields)) = .ok (pyLower s) q := by
      simp [classifyTry, hit, hconf, pyFloat]
    have hv : validate_issue_type (pyLower s) q =
        { issue_type := pyLower s, confidence := q } := by
      unfold validate_issue_type
      rw [if_pos hmem]
    simp [classify_issue_post, hstep, hv]
  · intro fields s t h1 hc hpd
    have hit : getIssueTypeRaw fields = PyVal.str s := by
      rw [getIssueTypeRaw, h1]
      rfl
    have hconf : getConfidenceRaw fields = PyVal.str t := by
      rw [getConfidenceRaw, hc]
      rfl
    have hstep : classifyTry (some (PyVal.obj fields)) = .caught := by
      simp [classifyTry, hit, hconf, pyFloat, hpd]
    have hv : validate_issue_type "general" (3 / 10) =
        { issue_type := "general", confidence := 3 / 10 } := rfl
    simp [classify_issue_post, hstep, hv]

/-- Claim C3 witness: an out-of-range numeric confidence (`2.0`) passes
through unchanged, and the non-numeric string \"very high\" falls back to
`general`/`0.3`. -/
theorem classify_confidence_passthrough_witness :
    classify_issue_post (some (PyVal.obj
      [("issue_type", PyVal.str "refund"), ("confidence", PyVal.num 2)])) =
      some { issue_type := "refund", confidence := 2 } ∧
    classify_issue_post (some (PyVal.obj
      [("issue_type", PyVal.str "refund"), ("confidence", PyVal.str "very high")])) =
      some { issue_type := "general", confidence := 3 / 10 } := by
  constructor
  · have h := classify_confidence_passthrough.1
      [("issue_type", PyVal.str "refund"), ("confidence", PyVal.num 2)]
      "refund" 2 rfl (by decide) rfl
    rwa [show pyLower "refund" = "refund" by decide] at h
  · exact classify_confidence_passthrough.2 _ "refund" "very high" rfl rfl (by decide)

/-- Claim C9: every inserted ticket has priority `high` exactly when the
lowercased message contains \"sue\", \"legal\" or \"lawyer\" as a substring
(`medium` otherwise), and its status is always \"open\". -/
theorem insert_support_ticket_priority_open (msg it er : String) (ctx : Ctx)
    (rand : ℕ) (now : String) :
    ((insert_support_ticket msg it er ctx rand now).priority = "high" ↔
      (strContains (pyLower msg) "sue" = true ∨
        strContains (pyLower msg) "legal" = true ∨
        strContains (pyLower msg) "lawyer" = true)) ∧
    ((insert_support_ticket msg it er ctx rand now).priority = "medium" ↔
      ¬ (strContains (pyLower msg) "sue" = true ∨
        strContains (pyLower msg) "legal" = true ∨
        strContains (pyLower msg) "lawyer" = true)) ∧
    (insert_support_ticket msg it er ctx rand now).status = "open" := by
  have hany : ((["sue", "legal", "lawyer"].any
        fun kw => strContains (pyLower msg) kw) = true) ↔
      (strContains (pyLower msg) "sue" = true ∨
        strContains (pyLower msg) "legal" = true ∨
        strContains (pyLower msg) "lawyer" = true) := by
    simp [List.any_cons, List.any_nil, Bool.or_eq_true]
  have hpr : (insert_support_ticket msg it er ctx rand now).priority =
      (if (["sue", "legal", "lawyer"].any fun kw => strContains (pyLower msg) kw)
        then "high" else "medium") := rfl
  refine ⟨?_, ?_, rfl⟩ <;> rw [hpr] <;>
    by_cases h : (["sue", "legal", "lawyer"].any
      fun kw => strContains (pyLower msg) kw) = true
  · rw [if_pos h]
    exact iff_of_true rfl (hany.mp h)
  · rw [if_neg h]
    exact iff_of_false (by decide) fun hd => h (hany.mpr hd)
  · rw [if_pos h]
    exact iff_of_false (by decide) fun hnd => hnd (hany.mp h)
  · rw [if_neg h]
    exact iff_of_true rfl fun hd => h (hany.mpr hd)

/-- Claim C9 witness: a legal-threat message gets priority `high`; a plain
message gets priority `medium`. -/
theorem insert_support_ticket_priority_open_witness :
    (insert_support_ticket "I will sue you" "refund" "r" [] 1234 "now").priority =
      "high" ∧
    (insert_support_ticket "please help" "general" "r" [] 5678 "now").priority =
      "medium" :=
  ⟨(insert_support_ticket_priority_open "I will sue you" "refund" "r" [] 1234
      "now").1.mpr (Or.inl (by decide)),
   (insert_support_ticket_priority_open "please help" "general" "r" [] 5678
      "now").2.1.mpr (by decide)⟩

/-- Claim C1 (code-bug evidence): on the escalating legal-threat scenario,
`escalate_to_human` inserts no ticket, makes no generative call, and its
acknowledgement contains no data-store ticket identifier (ticket ids built
by `insert_support_ticket` start with \"TKT-\"). -/
theorem escalate_to_human_creates_no_ticket :
    escalationScenarioResult.ticketsInserted = [] ∧
    escalationScenarioResult.llmCalls = 0 ∧
    strContains escalationScenarioResult.response "TKT-" = false :=
  ⟨rfl, rfl, by decide⟩

/-- Claim C8 (code-bug evidence): on the refund scenario, `handle_refund`
performs no data-store query and its handler context contains neither a
`refund_policy` record nor a `refund_eligibility` record (the keys the
repository's own display layer looks for). -/
theorem handle_refund_no_datastore_records :
    objGet (handle_refund refundScenarioMessage).handler_context
      "refund_policy" = none ∧
    objGet (handle_refund refundScenarioMessage).handler_context
      "refund_eligibility" = none ∧
    (handle_refund refundScenarioMessage).dbQueries = [] :=
  ⟨rfl, rfl, rfl⟩

end CustomerSupport
